import Mathlib

/-!
Verification of the surrogate prediction engine of `src/services/surrogateModel.ts`
(`calculateSimulation` and its helpers), shallowly embedded over `ℚ`.

Modelling conventions:
* JavaScript numbers are modelled by `ℚ` (exact arithmetic); grid/loop indices by `ℕ`.
* `parseFloat(x.toFixed(1))` is modelled by `round1` (round to the nearest tenth,
  half up), which satisfies `|round1 q - q| ≤ 1/20`.
* `Math.cos(thetaRad)` and `Math.sin(thetaRad)` are transcendental; the embedding
  takes their values as explicit oracle parameters `cosTheta`, `sinTheta` of
  `calculateSimulation` (they feed only the literature benchmark).
* JavaScript `%` on numbers (remainder with truncated quotient) is `jsMod`;
  `array[i] ?? d` is `(l.get? i).getD d`; a possibly-absent `specs` argument
  (`specs || default`) is an `Option ChillerSpecs`.
* Dataset rows are `List ℚ`; the four leading parameter fields are read with
  `List.getD _ 0` (the data model guarantees they are present; the engine itself
  only has an explicit `??` fallback for the temperature fields, which is
  modelled exactly by `rawTempKOf`).
-/

/-- Round to one decimal place, half up: the model of `parseFloat(x.toFixed(1))`. -/
def round1 (q : ℚ) : ℚ := ((⌊q * 10 + 1 / 2⌋ : ℤ) : ℚ) / 10

/-- Truncated integer part, as used by the JavaScript `%` operator. -/
def ratTrunc (q : ℚ) : ℤ := if 0 ≤ q then ⌊q⌋ else ⌈q⌉

/-- JavaScript remainder `x % y` on numbers: `x - y * trunc (x / y)`. -/
def jsMod (x y : ℚ) : ℚ := x - y * ((ratTrunc (x / y) : ℤ) : ℚ)

-- Constants of `surrogateModel.ts`.

/-- Index where chiller temps begin (row has 4 params then T0..T19). -/
def DATA_START_INDEX : ℕ := 4

/-- Assumed ambient of the dataset (40C / 104F). -/
def DATA_AMBIENT_K : ℚ := 313.15

/-- Number of temperature slots per dataset row. -/
def DATASET_SIZE : ℕ := 20

/-- Native grid of the dataset: 4 rows. -/
def BASE_ROWS : ℕ := 4

/-- Native grid of the dataset: 5 columns. -/
def BASE_COLS : ℕ := 5

/-- `Number.MAX_VALUE`, the initial minimum distance of the matcher loop:
the numeral is the exact value of `(2 ^ 53 - 1) * 2 ^ 971`. -/
def NUMBER_MAX_VALUE : ℚ := 179769313486231570814527423731704356798070567525844996598917476803157260780028538760589558632766878171540458953514382464234321326889464182768467546703537516986049910576551282076245490090389328944075868508455133942304583236903222948165808559332123348274797826204144723168738177180919299881250404026184124858368

theorem NUMBER_MAX_VALUE_eq : NUMBER_MAX_VALUE = (2 ^ 53 - 1) * 2 ^ 971 := by
  rw [NUMBER_MAX_VALUE]
  norm_num

def kelvinToF (K : ℚ) : ℚ := (K - 273.15) * (9 / 5) + 32

def toDeltaF (deltaC : ℚ) : ℚ := deltaC * 1.8

def ftToMeters (ft : ℚ) : ℚ := ft * 0.3048

-- Data model (`src/types.ts`).

structure SimulationInputs where
  rows : ℕ
  columns : ℕ
  rowSpacing : ℚ
  colSpacing : ℚ
  windSpeed : ℚ
  windDirection : ℚ
  flowRate : ℚ
  ambientTemp : ℚ
  layout : List Bool
  eftBase : Bool
  fanExtension : Bool
  deriving DecidableEq

structure ChillerSpecs where
  ratedCapacity : ℚ
  ratedEnteringTemp : ℚ
  deratingSlope : ℚ
  lockoutTemp : ℚ
  designLoad : ℚ
  deriving DecidableEq

inductive ChillerStatus where
  | Healthy
  | Degraded
  | AtRisk
  | LockedOut
  deriving DecidableEq

structure ChillerNode where
  id : String
  index : ℕ
  row : ℕ
  col : ℕ
  tempRise : ℚ
  totalTemp : ℚ
  isMax : Bool
  isActive : Bool
  effectiveCapacity : ℚ
  deratingPct : ℚ
  status : ChillerStatus
  deriving DecidableEq

structure LiteratureBenchmark where
  source : String
  effectiveLengthMeters : ℚ
  predictedMaxRiseF : ℚ
  predictedAvgRiseF : ℚ
  deriving DecidableEq

inductive RedundancyLabel where
  | INTACT
  | ERODED
  | LOST
  | CRITICAL
  deriving DecidableEq

inductive RiskLevel where
  | Low
  | Moderate
  | High
  | Critical
  deriving DecidableEq

structure CapacityAnalysis where
  totalRatedCapacity : ℚ
  totalEffectiveCapacity : ℚ
  capacityLossPct : ℚ
  redundancyStatus : ℚ
  redundancyLabel : RedundancyLabel
  chillersAtRisk : ℕ
  chillersLockedOut : ℕ
  deriving DecidableEq

structure SimulationResult where
  grid : List ChillerNode
  maxTempRise : ℚ
  maxTotalTemp : ℚ
  avgTempRise : ℚ
  riskLevel : RiskLevel
  benchmark : LiteratureBenchmark
  capacity : CapacityAnalysis
  matchedRowIndex : ℤ
  deriving DecidableEq

/-- The default specs substituted by `specs || { ... }` when none are supplied. -/
def defaultSpecs : ChillerSpecs :=
  { ratedCapacity := 500, ratedEnteringTemp := 95, deratingSlope := 1.5,
    lockoutTemp := 127, designLoad := 2000 }

/-- The zero-value result returned on an empty dataset. -/
def emptyResult (inputs : SimulationInputs) : SimulationResult :=
  { grid := []
    maxTempRise := 0
    maxTotalTemp := inputs.ambientTemp
    avgTempRise := 0
    riskLevel := .Low
    benchmark :=
      { source := "Watson & Charentenay (2019)"
        effectiveLengthMeters := 0
        predictedMaxRiseF := 0
        predictedAvgRiseF := 0 }
    capacity :=
      { totalRatedCapacity := 0
        totalEffectiveCapacity := 0
        capacityLossPct := 0
        redundancyStatus := 0
        redundancyLabel := .INTACT
        chillersAtRisk := 0
        chillersLockedOut := 0 }
    matchedRowIndex := -1 }

/-- Orientation for lookup, folded to [0, 90]:
`let o = windDirection % 180; if (o > 90) o = 180 - o`. -/
def orientationOf (windDirection : ℚ) : ℚ :=
  let o := jsMod windDirection 180
  if o > 90 then 180 - o else o

-- Literature benchmark (`benchmark` in `calculateSimulation`).

def CHILLER_LENGTH_FT : ℚ := 16

def CHILLER_WIDTH_FT : ℚ := 7.5

/-- The Watson & Charentenay (2019) benchmark block of `calculateSimulation`,
with `cosTheta` and `sinTheta` the values of `Math.cos`/`Math.sin` at
`thetaRad = windDirection * π / 180`. -/
def benchmarkOf (cosTheta sinTheta : ℚ) (inputs : SimulationInputs) : LiteratureBenchmark :=
  let arrayLengthFt := (inputs.rows : ℚ) * CHILLER_LENGTH_FT +
    ((inputs.rows : ℚ) - 1) * inputs.rowSpacing
  let arrayWidthFt := (inputs.columns : ℚ) * CHILLER_WIDTH_FT +
    ((inputs.columns : ℚ) - 1) * inputs.colSpacing
  let Lpc_ft := |arrayLengthFt * cosTheta| + |arrayWidthFt * sinTheta|
  let Lpc_m := ftToMeters Lpc_ft
  let watsonAvgC := 8.7 * max ((Lpc_m - 38.9) / 26.8) (-1) + 9.0
  let watsonMaxC := 18.7 * max ((Lpc_m - 38.9) / 26.8) (-1) + 19.5
  { source := "Watson & Charentenay (2019)"
    effectiveLengthMeters := round1 Lpc_m
    predictedMaxRiseF := round1 (toDeltaF (max watsonMaxC 0))
    predictedAvgRiseF := round1 (toDeltaF (max watsonAvgC 0)) }

-- Nearest-neighbor matcher.

/-- Normalized squared distance of a dataset row to the (already converted)
inputs: the loop body of the lookup. -/
def distSqTo (inputSpeed inputFlow orient inputRowSpacing : ℚ) (row : List ℚ) : ℚ :=
  let dSpeed := (row.getD 0 0 - inputSpeed) / 10
  let dFlow := (row.getD 1 0 - inputFlow) / 120000
  let dOrient := (row.getD 2 0 - orient) / 90
  let dSpacing := (row.getD 3 0 - inputRowSpacing) / 20
  dSpeed * dSpeed + dFlow * dFlow + dOrient * dOrient + dSpacing * dSpacing

structure MatchState where
  minDistance : ℚ
  closestRow : List ℚ
  matchedRowIndex : ℕ
  deriving DecidableEq

/-- The matcher loop: strict `<` update, earliest row wins on ties. -/
def findClosestAux (speed flow orient spacing : ℚ) :
    ℕ → MatchState → List (List ℚ) → MatchState
  | _, s, [] => s
  | i, s, row :: rest =>
    let distSq := distSqTo speed flow orient spacing row
    findClosestAux speed flow orient spacing (i + 1)
      (if distSq < s.minDistance then ⟨distSq, row, i⟩ else s) rest

/-- The full lookup: `minDistance` starts at `Number.MAX_VALUE`,
`closestRow` at `dataset[0]`, `matchedRowIndex` at `0`. -/
def findClosest (speed flow orient spacing : ℚ) (dataset : List (List ℚ)) : MatchState :=
  findClosestAux speed flow orient spacing 0
    ⟨NUMBER_MAX_VALUE, dataset.headD [], 0⟩ dataset

-- Grid projection and per-cell capacity.

/-- `dataIndex = row * BASE_COLS + col` for target cell `i`. -/
def dataIndexOf (columns i : ℕ) : ℕ := (i / columns) * BASE_COLS + i % columns

/-- `safeIndex = Math.min(Math.max(dataIndex, 0), DATASET_SIZE - 1)`. -/
def safeIndexOf (columns i : ℕ) : ℕ :=
  min (max (dataIndexOf columns i) 0) (DATASET_SIZE - 1)

/-- `rawTempK = closestRow[DATA_START_INDEX + safeIndex] ?? DATA_AMBIENT_K`. -/
def rawTempKOf (closestRow : List ℚ) (columns i : ℕ) : ℚ :=
  (closestRow.get? (DATA_START_INDEX + safeIndexOf columns i)).getD DATA_AMBIENT_K

/-- `finalTempF = kelvinToF(rawTempK)`: direct display, no regression scaling. -/
def finalTempFOf (closestRow : List ℚ) (columns i : ℕ) : ℚ :=
  kelvinToF (rawTempKOf closestRow columns i)

/-- `isActive = inputs.layout[i] ?? true`. -/
def isActiveAt (layout : List Bool) (i : ℕ) : Bool := (layout.get? i).getD true

/-- Result of the per-cell capacity block for an active cell. -/
structure CellCap where
  effectiveCap : ℚ
  deratingPct : ℚ
  status : ChillerStatus
  deriving DecidableEq

/-- The per-active-cell capacity calculation: lockout, else derating and status. -/
def cellCap (specs : ChillerSpecs) (finalTempF : ℚ) : CellCap :=
  if finalTempF ≥ specs.lockoutTemp then
    { effectiveCap := 0, deratingPct := 100, status := .LockedOut }
  else
    let excessTemp := max 0 (finalTempF - specs.ratedEnteringTemp)
    let lossPct := excessTemp * specs.deratingSlope
    let deratingPct := min lossPct 100
    let effectiveCap := specs.ratedCapacity * (1 - deratingPct / 100)
    { effectiveCap := effectiveCap
      deratingPct := deratingPct
      status :=
        if finalTempF ≥ specs.lockoutTemp - 5 then .AtRisk
        else if deratingPct > 10 then .Degraded
        else .Healthy }

/-- The capacity block of one cell: an active cell runs `cellCap`, an inactive
cell keeps the initializers `effectiveCap = 0`, `deratingPct = 0`, `status = Healthy`. -/
def cellCapOf (inputs : SimulationInputs) (specs : ChillerSpecs) (closestRow : List ℚ)
    (i : ℕ) : CellCap :=
  if isActiveAt inputs.layout i then
    cellCap specs (finalTempFOf closestRow inputs.columns i)
  else { effectiveCap := 0, deratingPct := 0, status := .Healthy }

/-- One `ChillerNode` as pushed by the per-cell loop (`isMax` still `false`;
it is set by the second pass, see `gridOf`). -/
def nodeOf (inputs : SimulationInputs) (specs : ChillerSpecs) (closestRow : List ℚ)
    (i : ℕ) : ChillerNode :=
  let row := i / inputs.columns
  let col := i % inputs.columns
  let finalTempF := finalTempFOf closestRow inputs.columns i
  let tempRiseF := finalTempF - inputs.ambientTemp
  let isActive := isActiveAt inputs.layout i
  let c := cellCapOf inputs specs closestRow i
  { id := toString row ++ "-" ++ toString col
    index := i
    row := row
    col := col
    tempRise := round1 tempRiseF
    totalTemp := if isActive then round1 finalTempF else inputs.ambientTemp
    isMax := false
    isActive := isActive
    effectiveCapacity := c.effectiveCap
    deratingPct := round1 c.deratingPct
    status := c.status }

-- Aggregates, stated over an explicit index list so that exclusion of a cell
-- can be expressed by removing its index (`calculateSimulation` uses
-- `List.range (rows * columns)`, the loop order of the source).

/-- The indices of the cells the aggregation loop visits. -/
def gridIdxs (inputs : SimulationInputs) : List ℕ :=
  List.range (inputs.rows * inputs.columns)

/-- Indices of active cells (the `if (isActive)` guard of the loop). -/
def activeIdxsOver (layout : List Bool) (idxs : List ℕ) : List ℕ :=
  idxs.filter (fun i => isActiveAt layout i)

/-- `riseForStats = Math.max(0, tempRiseF)`. -/
def riseForStatsOf (inputs : SimulationInputs) (closestRow : List ℚ) (i : ℕ) : ℚ :=
  max 0 (finalTempFOf closestRow inputs.columns i - inputs.ambientTemp)

/-- `globalMaxRiseF`: running maximum of `riseForStats` over active cells, from 0. -/
def globalMaxRiseOver (inputs : SimulationInputs) (closestRow : List ℚ)
    (idxs : List ℕ) : ℚ :=
  (activeIdxsOver inputs.layout idxs).foldl
    (fun m i => max m (riseForStatsOf inputs closestRow i)) 0

/-- `totalRiseSumF`: sum of `riseForStats` over active cells. -/
def totalRiseSumOver (inputs : SimulationInputs) (closestRow : List ℚ)
    (idxs : List ℕ) : ℚ :=
  ((activeIdxsOver inputs.layout idxs).map (riseForStatsOf inputs closestRow)).sum

/-- `activeChillerCount`. -/
def activeCountOver (layout : List Bool) (idxs : List ℕ) : ℕ :=
  (activeIdxsOver layout idxs).length

/-- `totalEffectiveCapacity`: sum of `effectiveCap` over active cells. -/
def totalEffCapOver (inputs : SimulationInputs) (specs : ChillerSpecs)
    (closestRow : List ℚ) (idxs : List ℕ) : ℚ :=
  ((activeIdxsOver inputs.layout idxs).map
    (fun i => (cellCap specs (finalTempFOf closestRow inputs.columns i)).effectiveCap)).sum

/-- `chillersLockedOut`: active cells classified `LockedOut`. -/
def lockedOutCountOver (inputs : SimulationInputs) (specs : ChillerSpecs)
    (closestRow : List ℚ) (idxs : List ℕ) : ℕ :=
  (activeIdxsOver inputs.layout idxs).countP
    (fun i => decide ((cellCap specs (finalTempFOf closestRow inputs.columns i)).status
      = ChillerStatus.LockedOut))

/-- `chillersAtRisk`: active cells classified `AtRisk`. -/
def atRiskCountOver (inputs : SimulationInputs) (specs : ChillerSpecs)
    (closestRow : List ℚ) (idxs : List ℕ) : ℕ :=
  (activeIdxsOver inputs.layout idxs).countP
    (fun i => decide ((cellCap specs (finalTempFOf closestRow inputs.columns i)).status
      = ChillerStatus.AtRisk))

/-- The second pass over nodes:
`if (n.isActive && n.tempRise >= globalMaxRiseF - 0.2) n.isMax = true`. -/
def markMaxNode (globalMaxRiseF : ℚ) (n : ChillerNode) : ChillerNode :=
  if n.isActive = true ∧ n.tempRise ≥ globalMaxRiseF - 0.2 then
    { n with isMax := true } else n

/-- The returned `grid`: the nodes of the loop, with the `isMax` pass applied
when there is at least one active chiller. -/
def gridOf (inputs : SimulationInputs) (specs : ChillerSpecs)
    (closestRow : List ℚ) : List ChillerNode :=
  let nodes := (gridIdxs inputs).map (nodeOf inputs specs closestRow)
  if 0 < activeCountOver inputs.layout (gridIdxs inputs) then
    nodes.map (markMaxNode (globalMaxRiseOver inputs closestRow (gridIdxs inputs)))
  else nodes

/-- The redundancy classification if-chain. -/
def redundancyLabelOf (inputs : SimulationInputs) (specs : ChillerSpecs)
    (closestRow : List ℚ) : RedundancyLabel :=
  let totalEffectiveCapacity := totalEffCapOver inputs specs closestRow (gridIdxs inputs)
  let effectiveSpareCapacity := totalEffectiveCapacity - specs.designLoad
  let redundancyStatus := effectiveSpareCapacity / specs.ratedCapacity
  if 0 < lockedOutCountOver inputs specs closestRow (gridIdxs inputs) ∨
      totalEffectiveCapacity < specs.designLoad then .CRITICAL
  else if effectiveSpareCapacity < 0 then .LOST
  else if 0 < atRiskCountOver inputs specs closestRow (gridIdxs inputs) ∨
      redundancyStatus < 1 then .ERODED
  else .INTACT

/-- The legacy risk level, reassigned from the label:
start `Low`, then the three `if (redundancyLabel === ...)` lines. -/
def riskLevelOf (label : RedundancyLabel) : RiskLevel :=
  if label = .ERODED then .Moderate
  else if label = .LOST then .High
  else if label = .CRITICAL then .Critical
  else .Low

/-- The aggregate `capacity` record of the result. -/
def capacityOf (inputs : SimulationInputs) (specs : ChillerSpecs)
    (closestRow : List ℚ) : CapacityAnalysis :=
  let totalRatedCapacity :=
    (activeCountOver inputs.layout (gridIdxs inputs) : ℚ) * specs.ratedCapacity
  let totalEffectiveCapacity := totalEffCapOver inputs specs closestRow (gridIdxs inputs)
  { totalRatedCapacity := totalRatedCapacity
    totalEffectiveCapacity := totalEffectiveCapacity
    capacityLossPct :=
      if totalRatedCapacity > 0 then
        ((totalRatedCapacity - totalEffectiveCapacity) / totalRatedCapacity) * 100
      else 0
    redundancyStatus := (totalEffectiveCapacity - specs.designLoad) / specs.ratedCapacity
    redundancyLabel := redundancyLabelOf inputs specs closestRow
    chillersAtRisk := atRiskCountOver inputs specs closestRow (gridIdxs inputs)
    chillersLockedOut := lockedOutCountOver inputs specs closestRow (gridIdxs inputs) }

/-- Assembly of the non-empty-dataset result. -/
def buildResult (inputs : SimulationInputs) (specs : ChillerSpecs)
    (benchmark : LiteratureBenchmark) (closestRow : List ℚ)
    (matchedRowIndex : ℕ) : SimulationResult :=
  let globalMaxRiseF := globalMaxRiseOver inputs closestRow (gridIdxs inputs)
  let activeChillerCount := activeCountOver inputs.layout (gridIdxs inputs)
  { grid := gridOf inputs specs closestRow
    maxTempRise := round1 globalMaxRiseF
    maxTotalTemp := round1 (inputs.ambientTemp + globalMaxRiseF)
    avgTempRise := round1 (if 0 < activeChillerCount then
      totalRiseSumOver inputs closestRow (gridIdxs inputs) / (activeChillerCount : ℚ)
      else 0)
    riskLevel := riskLevelOf (redundancyLabelOf inputs specs closestRow)
    benchmark := benchmark
    capacity := capacityOf inputs specs closestRow
    matchedRowIndex := (matchedRowIndex : ℤ) }

/-- `calculateSimulation(inputs, dataset, specs)` of `surrogateModel.ts`.
`cosTheta`/`sinTheta` are the values of `Math.cos`/`Math.sin` at
`thetaRad = inputs.windDirection * π / 180` (oracle parameters, used only by
the benchmark); `specsOpt` models the possibly-absent `specs` argument. -/
def calculateSimulation (cosTheta sinTheta : ℚ) (inputs : SimulationInputs)
    (dataset : List (List ℚ)) (specsOpt : Option ChillerSpecs) : SimulationResult :=
  let safeSpecs := specsOpt.getD defaultSpecs
  if dataset.isEmpty then emptyResult inputs
  else
    let m := findClosest inputs.windSpeed (inputs.flowRate * 1000)
      (orientationOf inputs.windDirection) inputs.rowSpacing dataset
    buildResult inputs safeSpecs (benchmarkOf cosTheta sinTheta inputs)
      m.closestRow m.matchedRowIndex

-- Basic lemmas about the numeric helpers.

theorem abs_round1_sub_le (q : ℚ) : |round1 q - q| ≤ 1 / 20 := by
  have h1 : ((⌊q * 10 + 1 / 2⌋ : ℤ) : ℚ) ≤ q * 10 + 1 / 2 := Int.floor_le _
  have h2 : q * 10 + 1 / 2 - 1 < ((⌊q * 10 + 1 / 2⌋ : ℤ) : ℚ) := Int.sub_one_lt_floor _
  rw [round1, abs_le]
  constructor <;> linarith

theorem distSqTo_nonneg (a b c d : ℚ) (row : List ℚ) : 0 ≤ distSqTo a b c d row := by
  simp only [distSqTo]
  refine add_nonneg (add_nonneg (add_nonneg ?_ ?_) ?_) ?_ <;> exact mul_self_nonneg _

theorem jsMod_eq_self (x : ℚ) (h0 : 0 ≤ x) (h1 : x < 180) : jsMod x 180 = x := by
  have hq0 : (0 : ℚ) ≤ x / 180 := by positivity
  have hq1 : x / 180 < 1 := by
    rw [div_lt_one (by norm_num : (0 : ℚ) < 180)]; linarith
  have hfloor : ⌊x / 180⌋ = 0 := by
    rw [Int.floor_eq_zero_iff]; exact Set.mem_Ico.mpr ⟨hq0, hq1⟩
  rw [jsMod, ratTrunc, if_pos hq0, hfloor]
  push_cast; ring

theorem jsMod_fold_once (x : ℚ) (h0 : 180 ≤ x) (h1 : x < 360) : jsMod x 180 = x - 180 := by
  have hx : (0 : ℚ) ≤ x := le_trans (by norm_num) h0
  have hq0 : (0 : ℚ) ≤ x / 180 := by positivity
  have hfloor : ⌊x / 180⌋ = 1 := by
    rw [Int.floor_eq_iff]
    constructor
    · push_cast
      rw [le_div_iff₀ (by norm_num : (0 : ℚ) < 180)]
      linarith
    · push_cast
      rw [div_lt_iff₀ (by norm_num : (0 : ℚ) < 180)]
      linarith
  rw [jsMod, ratTrunc, if_pos hq0, hfloor]
  push_cast; ring

theorem jsMod_360_180 : jsMod 360 180 = 0 := by
  have h : (360 : ℚ) / 180 = 2 := by norm_num
  rw [jsMod, ratTrunc, if_pos (by norm_num : (0 : ℚ) ≤ 360 / 180), h]
  norm_num

-- Unfolding lemmas for `calculateSimulation` on a non-empty dataset.

theorem calcSim_cons (cosTheta sinTheta : ℚ) (inputs : SimulationInputs)
    (r : List ℚ) (rest : List (List ℚ)) (specsOpt : Option ChillerSpecs) :
    calculateSimulation cosTheta sinTheta inputs (r :: rest) specsOpt
      = buildResult inputs (specsOpt.getD defaultSpecs)
          (benchmarkOf cosTheta sinTheta inputs)
          (findClosest inputs.windSpeed (inputs.flowRate * 1000)
            (orientationOf inputs.windDirection) inputs.rowSpacing (r :: rest)).closestRow
          (findClosest inputs.windSpeed (inputs.flowRate * 1000)
            (orientationOf inputs.windDirection) inputs.rowSpacing (r :: rest)).matchedRowIndex :=
  rfl

theorem calcSim_nil (cosTheta sinTheta : ℚ) (inputs : SimulationInputs)
    (specsOpt : Option ChillerSpecs) :
    calculateSimulation cosTheta sinTheta inputs [] specsOpt = emptyResult inputs := rfl

-- The redundancy label if-chain can never produce `LOST`: its guard
-- `effectiveSpareCapacity < 0` is equivalent to the `CRITICAL` guard
-- `totalEffectiveCapacity < designLoad` already checked before it.

theorem redundancyLabelOf_ne_LOST (inputs : SimulationInputs) (specs : ChillerSpecs)
    (closestRow : List ℚ) : redundancyLabelOf inputs specs closestRow ≠ .LOST := by
  simp only [redundancyLabelOf]
  split_ifs with h1 h2 h3
  · simp
  · push_neg at h1
    exfalso
    linarith [h1.2]
  · simp
  · simp

theorem riskLevelOf_ne_High (label : RedundancyLabel) (h : label ≠ .LOST) :
    riskLevelOf label ≠ .High := by
  unfold riskLevelOf
  split_ifs <;> simp_all

/-- C3: on an empty dataset, `calculateSimulation` returns (rather than raising) the
zero-value result: `matchedRowIndex = -1`, empty grid, all aggregates zero/default
(`totalRatedCapacity = 0`, `totalEffectiveCapacity = 0`, `capacityLossPct = 0`,
`redundancyStatus = 0`, `redundancyLabel = INTACT`, `chillersAtRisk = 0`,
`chillersLockedOut = 0`, benchmark fields 0, `maxTempRise = 0`, `avgTempRise = 0`),
and `riskLevel = Low`, for every inputs and specs. -/
theorem empty_dataset_zero_result (cosTheta sinTheta : ℚ) (inputs : SimulationInputs)
    (specsOpt : Option ChillerSpecs) :
    calculateSimulation cosTheta sinTheta inputs [] specsOpt =
      { grid := []
        maxTempRise := 0
        maxTotalTemp := inputs.ambientTemp
        avgTempRise := 0
        riskLevel := .Low
        benchmark :=
          { source := "Watson & Charentenay (2019)"
            effectiveLengthMeters := 0
            predictedMaxRiseF := 0
            predictedAvgRiseF := 0 }
        capacity :=
          { totalRatedCapacity := 0
            totalEffectiveCapacity := 0
            capacityLossPct := 0
            redundancyStatus := 0
            redundancyLabel := .INTACT
            chillersAtRisk := 0
            chillersLockedOut := 0 }
        matchedRowIndex := -1 } := rfl

/-- C5 (implicit): the `LOST` redundancy label and the `High` risk level are
unreachable: the `LOST` guard `effectiveSpareCapacity < 0` is equivalent to
`totalEffectiveCapacity < designLoad`, which already triggered `CRITICAL`.
Proved for every dataset (including the empty one). -/
theorem lost_label_high_risk_unreachable (cosTheta sinTheta : ℚ)
    (inputs : SimulationInputs) (dataset : List (List ℚ))
    (specsOpt : Option ChillerSpecs) :
    (calculateSimulation cosTheta sinTheta inputs dataset specsOpt).capacity.redundancyLabel
        ≠ RedundancyLabel.LOST ∧
      (calculateSimulation cosTheta sinTheta inputs dataset specsOpt).riskLevel
        ≠ RiskLevel.High := by
  cases dataset with
  | nil =>
    rw [calcSim_nil]
    exact ⟨by simp [emptyResult], by simp [emptyResult]⟩
  | cons r rest =>
    rw [calcSim_cons]
    exact ⟨redundancyLabelOf_ne_LOST _ _ _,
      riskLevelOf_ne_High _ (redundancyLabelOf_ne_LOST _ _ _)⟩

-- Projection lemmas: the per-node fields and the assembled result.

theorem nodeOf_isActive (inputs : SimulationInputs) (specs : ChillerSpecs)
    (row : List ℚ) (i : ℕ) :
    (nodeOf inputs specs row i).isActive = isActiveAt inputs.layout i := rfl

theorem nodeOf_status (inputs : SimulationInputs) (specs : ChillerSpecs)
    (row : List ℚ) (i : ℕ) :
    (nodeOf inputs specs row i).status = (cellCapOf inputs specs row i).status := rfl

theorem nodeOf_totalTemp (inputs : SimulationInputs) (specs : ChillerSpecs)
    (row : List ℚ) (i : ℕ) :
    (nodeOf inputs specs row i).totalTemp =
      if isActiveAt inputs.layout i then round1 (finalTempFOf row inputs.columns i)
      else inputs.ambientTemp := rfl

theorem markMaxNode_isActive (m : ℚ) (n : ChillerNode) :
    (markMaxNode m n).isActive = n.isActive := by
  unfold markMaxNode; split <;> rfl

theorem markMaxNode_status (m : ℚ) (n : ChillerNode) :
    (markMaxNode m n).status = n.status := by
  unfold markMaxNode; split <;> rfl

theorem markMaxNode_totalTemp (m : ℚ) (n : ChillerNode) :
    (markMaxNode m n).totalTemp = n.totalTemp := by
  unfold markMaxNode; split <;> rfl

theorem buildResult_grid (inputs : SimulationInputs) (specs : ChillerSpecs)
    (b : LiteratureBenchmark) (row : List ℚ) (k : ℕ) :
    (buildResult inputs specs b row k).grid = gridOf inputs specs row := rfl

theorem buildResult_label (inputs : SimulationInputs) (specs : ChillerSpecs)
    (b : LiteratureBenchmark) (row : List ℚ) (k : ℕ) :
    (buildResult inputs specs b row k).capacity.redundancyLabel =
      redundancyLabelOf inputs specs row := rfl

theorem buildResult_totalEff (inputs : SimulationInputs) (specs : ChillerSpecs)
    (b : LiteratureBenchmark) (row : List ℚ) (k : ℕ) :
    (buildResult inputs specs b row k).capacity.totalEffectiveCapacity =
      totalEffCapOver inputs specs row (gridIdxs inputs) := rfl

theorem buildResult_redundancyStatus (inputs : SimulationInputs) (specs : ChillerSpecs)
    (b : LiteratureBenchmark) (row : List ℚ) (k : ℕ) :
    (buildResult inputs specs b row k).capacity.redundancyStatus =
      (totalEffCapOver inputs specs row (gridIdxs inputs) - specs.designLoad)
        / specs.ratedCapacity := rfl

theorem buildResult_matchedRowIndex (inputs : SimulationInputs) (specs : ChillerSpecs)
    (b : LiteratureBenchmark) (row : List ℚ) (k : ℕ) :
    (buildResult inputs specs b row k).matchedRowIndex = (k : ℤ) := rfl

theorem buildResult_benchmark (inputs : SimulationInputs) (specs : ChillerSpecs)
    (b : LiteratureBenchmark) (row : List ℚ) (k : ℕ) :
    (buildResult inputs specs b row k).benchmark = b := rfl

-- Membership in the returned grid, phrased through `nodeOf`.

theorem cellCapOf_active (inputs : SimulationInputs) (specs : ChillerSpecs)
    (row : List ℚ) (i : ℕ) (h : isActiveAt inputs.layout i = true) :
    cellCapOf inputs specs row i = cellCap specs (finalTempFOf row inputs.columns i) := by
  simp [cellCapOf, h]

theorem grid_status_iff (inputs : SimulationInputs) (specs : ChillerSpecs)
    (row : List ℚ) (st : ChillerStatus) :
    (∃ nd ∈ gridOf inputs specs row, nd.isActive = true ∧ nd.status = st) ↔
      ∃ i ∈ gridIdxs inputs, isActiveAt inputs.layout i = true ∧
        (cellCap specs (finalTempFOf row inputs.columns i)).status = st := by
  unfold gridOf
  have step : ∀ idxs : List ℕ,
      (∃ nd ∈ idxs.map (nodeOf inputs specs row), nd.isActive = true ∧ nd.status = st) ↔
        ∃ i ∈ idxs, isActiveAt inputs.layout i = true ∧
          (cellCap specs (finalTempFOf row inputs.columns i)).status = st := by
    intro idxs
    simp only [List.mem_map, exists_exists_and_eq_and, nodeOf_isActive, nodeOf_status]
    constructor
    · rintro ⟨i, hi, hact, hst⟩
      rw [cellCapOf_active inputs specs row i hact] at hst
      exact ⟨i, hi, hact, hst⟩
    · rintro ⟨i, hi, hact, hst⟩
      exact ⟨i, hi, hact, by rwa [cellCapOf_active inputs specs row i hact]⟩
  split_ifs with hc
  · rw [← step]
    simp only [List.map_map, List.mem_map, exists_exists_and_eq_and, Function.comp,
      markMaxNode_isActive, markMaxNode_status]
  · exact step _

theorem exists_lockedOut_iff (inputs : SimulationInputs) (specs : ChillerSpecs)
    (row : List ℚ) :
    (∃ nd ∈ gridOf inputs specs row,
        nd.isActive = true ∧ nd.status = ChillerStatus.LockedOut) ↔
      0 < lockedOutCountOver inputs specs row (gridIdxs inputs) := by
  rw [grid_status_iff]
  unfold lockedOutCountOver activeIdxsOver
  rw [List.countP_pos_iff]
  constructor
  · rintro ⟨i, hi, hact, hst⟩
    exact ⟨i, List.mem_filter.mpr ⟨hi, hact⟩, by simp [hst]⟩
  · rintro ⟨i, hi, hp⟩
    obtain ⟨hidx, hact⟩ := List.mem_filter.mp hi
    exact ⟨i, hidx, hact, by simpa using hp⟩

theorem exists_atRisk_iff (inputs : SimulationInputs) (specs : ChillerSpecs)
    (row : List ℚ) :
    (∃ nd ∈ gridOf inputs specs row,
        nd.isActive = true ∧ nd.status = ChillerStatus.AtRisk) ↔
      0 < atRiskCountOver inputs specs row (gridIdxs inputs) := by
  rw [grid_status_iff]
  unfold atRiskCountOver activeIdxsOver
  rw [List.countP_pos_iff]
  constructor
  · rintro ⟨i, hi, hact, hst⟩
    exact ⟨i, List.mem_filter.mpr ⟨hi, hact⟩, by simp [hst]⟩
  · rintro ⟨i, hi, hp⟩
    obtain ⟨hidx, hact⟩ := List.mem_filter.mp hi
    exact ⟨i, hidx, hact, by simpa using hp⟩

-- Concrete sample data for the evaluation witnesses.

/-- A 1×1 grid with one active cell (witness data). -/
def sampleInputs : SimulationInputs :=
  { rows := 1, columns := 1, rowSpacing := 12, colSpacing := 10, windSpeed := 4,
    windDirection := 45, flowRate := 140, ambientTemp := 104, layout := [true],
    eftBase := false, fanExtension := false }

/-- A well-formed dataset row matching `sampleInputs` exactly (witness data). -/
def sampleRow : List ℚ := [4, 140000, 45, 12] ++ List.replicate 20 313.15

/-- C2: with a non-empty dataset, the returned `redundancyLabel` is the first match
of the priority chain: `CRITICAL` if some active cell is LockedOut or
`totalEffectiveCapacity < designLoad`; else `LOST` if the effective spare capacity
`totalEffectiveCapacity - designLoad` is negative; else `ERODED` if some active
cell is AtRisk or `redundancyStatus < 1`; else `INTACT`. -/
theorem redundancy_priority_order (cosTheta sinTheta : ℚ) (inputs : SimulationInputs)
    (dataset : List (List ℚ)) (specs : ChillerSpecs) (h : dataset ≠ []) :
    (calculateSimulation cosTheta sinTheta inputs dataset (some specs)).capacity.redundancyLabel =
      (if (∃ nd ∈ (calculateSimulation cosTheta sinTheta inputs dataset (some specs)).grid,
            nd.isActive = true ∧ nd.status = ChillerStatus.LockedOut) ∨
          (calculateSimulation cosTheta sinTheta inputs dataset
            (some specs)).capacity.totalEffectiveCapacity < specs.designLoad
        then RedundancyLabel.CRITICAL
        else if (calculateSimulation cosTheta sinTheta inputs dataset
            (some specs)).capacity.totalEffectiveCapacity - specs.designLoad < 0
        then RedundancyLabel.LOST
        else if (∃ nd ∈ (calculateSimulation cosTheta sinTheta inputs dataset
              (some specs)).grid, nd.isActive = true ∧ nd.status = ChillerStatus.AtRisk) ∨
          (calculateSimulation cosTheta sinTheta inputs dataset
            (some specs)).capacity.redundancyStatus < 1
        then RedundancyLabel.ERODED
        else RedundancyLabel.INTACT) := by
  cases dataset with
  | nil => exact absurd rfl h
  | cons r rest =>
    rw [calcSim_cons]
    simp only [buildResult_grid, buildResult_label, buildResult_totalEff,
      buildResult_redundancyStatus, Option.getD_some]
    simp only [exists_lockedOut_iff, exists_atRisk_iff]
    simp only [redundancyLabelOf]

/-- Evaluation witness for `redundancy_priority_order` at concrete data. -/
theorem redundancy_priority_order_witness :
    ([sampleRow] ≠ ([] : List (List ℚ))) ∧
      (calculateSimulation 1 0 sampleInputs [sampleRow]
          (some defaultSpecs)).capacity.redundancyLabel =
        (if (∃ nd ∈ (calculateSimulation 1 0 sampleInputs [sampleRow]
              (some defaultSpecs)).grid,
              nd.isActive = true ∧ nd.status = ChillerStatus.LockedOut) ∨
            (calculateSimulation 1 0 sampleInputs [sampleRow]
              (some defaultSpecs)).capacity.totalEffectiveCapacity < defaultSpecs.designLoad
          then RedundancyLabel.CRITICAL
          else if (calculateSimulation 1 0 sampleInputs [sampleRow]
              (some defaultSpecs)).capacity.totalEffectiveCapacity - defaultSpecs.designLoad < 0
          then RedundancyLabel.LOST
          else if (∃ nd ∈ (calculateSimulation 1 0 sampleInputs [sampleRow]
                (some defaultSpecs)).grid,
                nd.isActive = true ∧ nd.status = ChillerStatus.AtRisk) ∨
            (calculateSimulation 1 0 sampleInputs [sampleRow]
              (some defaultSpecs)).capacity.redundancyStatus < 1
          then RedundancyLabel.ERODED
          else RedundancyLabel.INTACT) :=
  ⟨by decide, redundancy_priority_order 1 0 sampleInputs [sampleRow] defaultSpecs (by decide)⟩

-- Orientation fold symmetry.

theorem orientationOf_symm (d : ℚ) (h0 : 0 ≤ d) (h1 : d < 360) :
    orientationOf d = orientationOf (360 - d) := by
  rcases eq_or_lt_of_le h0 with h | hd0
  · rw [← h]
    have e0 : jsMod 0 180 = 0 := jsMod_eq_self 0 le_rfl (by norm_num)
    have e360 : jsMod 360 180 = 0 := jsMod_360_180
    norm_num [orientationOf, e0, e360]
  · rcases lt_or_le d 180 with hlt | hge
    · have ed : jsMod d 180 = d := jsMod_eq_self d h0 hlt
      have e2 : jsMod (360 - d) 180 = 360 - d - 180 :=
        jsMod_fold_once _ (by linarith) (by linarith)
      simp only [orientationOf, ed, e2]
      split_ifs <;> linarith
    · rcases eq_or_lt_of_le hge with heq | hgt
      · rw [← heq]
        have ed : jsMod 180 180 = 0 := by
          have h := jsMod_fold_once 180 le_rfl (by norm_num)
          simpa using h
        norm_num [orientationOf, ed]
      · have ed : jsMod d 180 = d - 180 := jsMod_fold_once d hge h1
        have e2 : jsMod (360 - d) 180 = 360 - d :=
          jsMod_eq_self _ (by linarith) (by linarith)
        simp only [orientationOf, ed, e2]
        split_ifs <;> linarith

/-- C6: for `windDirectionDeg ∈ [0, 360)`, the orientation fold maps `d` and
`360 - d` to the same [0, 90] axis value, so two `calculateSimulation` calls that
differ only in these two wind directions select the same matched dataset row. -/
theorem orientation_symmetry (d : ℚ) (h0 : 0 ≤ d) (h1 : d < 360) :
    orientationOf d = orientationOf (360 - d) ∧
      ∀ (c1 s1 c2 s2 : ℚ) (inputs : SimulationInputs) (dataset : List (List ℚ))
        (specsOpt : Option ChillerSpecs),
        (calculateSimulation c1 s1 { inputs with windDirection := d }
            dataset specsOpt).matchedRowIndex =
          (calculateSimulation c2 s2 { inputs with windDirection := 360 - d }
            dataset specsOpt).matchedRowIndex := by
  have hsym := orientationOf_symm d h0 h1
  refine ⟨hsym, ?_⟩
  intro c1 s1 c2 s2 inputs dataset specsOpt
  cases dataset with
  | nil => rw [calcSim_nil, calcSim_nil]; rfl
  | cons r rest =>
    rw [calcSim_cons, calcSim_cons]
    rw [buildResult_matchedRowIndex, buildResult_matchedRowIndex]
    dsimp only
    rw [hsym]

/-- Evaluation witness for `orientation_symmetry` at `d = 30`. -/
theorem orientation_symmetry_witness :
    ((0 : ℚ) ≤ 30 ∧ (30 : ℚ) < 360) ∧
      orientationOf 30 = orientationOf (360 - 30) ∧
      (calculateSimulation 1 0 { sampleInputs with windDirection := 30 }
          [sampleRow] (some defaultSpecs)).matchedRowIndex =
        (calculateSimulation 0 1 { sampleInputs with windDirection := 360 - 30 }
          [sampleRow] (some defaultSpecs)).matchedRowIndex :=
  ⟨⟨by norm_num, by norm_num⟩,
    (orientation_symmetry 30 (by norm_num) (by norm_num)).1,
    (orientation_symmetry 30 (by norm_num) (by norm_num)).2 1 0 0 1 sampleInputs
      [sampleRow] (some defaultSpecs)⟩

-- Grid projection: clamping and the missing-temperature fallback.

theorem gridOf_get (inputs : SimulationInputs) (specs : ChillerSpecs) (row : List ℚ)
    (i : ℕ) (hi : i < inputs.rows * inputs.columns) :
    ∃ n, (gridOf inputs specs row).get? i = some n ∧
      n.totalTemp = (nodeOf inputs specs row i).totalTemp ∧
      n.isActive = (nodeOf inputs specs row i).isActive ∧
      n.status = (nodeOf inputs specs row i).status := by
  have hr : (gridIdxs inputs).get? i = some i := by
    unfold gridIdxs
    exact List.get?_range hi
  unfold gridOf
  split_ifs with hc
  · refine ⟨markMaxNode (globalMaxRiseOver inputs row (gridIdxs inputs))
      (nodeOf inputs specs row i), ?_, markMaxNode_totalTemp _ _,
      markMaxNode_isActive _ _, markMaxNode_status _ _⟩
    rw [List.get?_map, List.get?_map, hr]
    rfl
  · refine ⟨nodeOf inputs specs row i, ?_, rfl, rfl, rfl⟩
    rw [List.get?_map, hr]
    rfl

/-- C8: for any target cell index, the engine clamps the row-major base index
`targetRow * 5 + targetCol` into `[0, 19]` and reads the matched row's temperature
at offset `DATA_START_INDEX + baseIndex`; a cell whose raw index reaches beyond the
native 20 positions receives the last slot's temperature instead of an
out-of-bounds error (the projection `rawTempKOf` is a total function). -/
theorem grid_projection_clamp (columns i : ℕ) (rowData : List ℚ)
    (h : DATASET_SIZE ≤ dataIndexOf columns i) :
    safeIndexOf columns i = DATASET_SIZE - 1 ∧
      rawTempKOf rowData columns i =
        (rowData.get? (DATA_START_INDEX + (DATASET_SIZE - 1))).getD DATA_AMBIENT_K := by
  have h20 : DATASET_SIZE = 20 := rfl
  rw [h20] at h
  have hs : safeIndexOf columns i = DATASET_SIZE - 1 := by
    unfold safeIndexOf
    rw [h20]
    omega
  refine ⟨hs, ?_⟩
  unfold rawTempKOf
  rw [hs]

/-- Evaluation witness for `grid_projection_clamp`: cell 20 of a 5-column grid. -/
theorem grid_projection_clamp_witness :
    DATASET_SIZE ≤ dataIndexOf 5 20 ∧
      (safeIndexOf 5 20 = DATASET_SIZE - 1 ∧
        rawTempKOf sampleRow 5 20 =
          (sampleRow.get? (DATA_START_INDEX + (DATASET_SIZE - 1))).getD DATA_AMBIENT_K) :=
  ⟨by decide, grid_projection_clamp 5 20 sampleRow (by decide)⟩

/-- A dataset row with the four parameters but no temperature entries (witness data). -/
def shortRow : List ℚ := [4, 140000, 45, 12]

/-- C10 (implicit): when the matched row lacks a temperature entry at the projected
offset, the missing Kelvin value is substituted with `DATA_AMBIENT_K = 313.15` and
the computation stays total: an active cell at that position reports
`totalTemp = kelvinToF 313.15 = 104` °F. -/
theorem missing_temperature_fallback (cosTheta sinTheta : ℚ) (inputs : SimulationInputs)
    (dataset : List (List ℚ)) (specsOpt : Option ChillerSpecs) (i : ℕ)
    (hds : dataset ≠ [])
    (hlen : (findClosest inputs.windSpeed (inputs.flowRate * 1000)
        (orientationOf inputs.windDirection) inputs.rowSpacing dataset).closestRow.length
        ≤ DATA_START_INDEX + safeIndexOf inputs.columns i)
    (hact : isActiveAt inputs.layout i = true)
    (hi : i < inputs.rows * inputs.columns) :
    rawTempKOf (findClosest inputs.windSpeed (inputs.flowRate * 1000)
        (orientationOf inputs.windDirection) inputs.rowSpacing dataset).closestRow
        inputs.columns i = DATA_AMBIENT_K ∧
      ((calculateSimulation cosTheta sinTheta inputs dataset specsOpt).grid.get? i).map
        ChillerNode.totalTemp = some 104 := by
  cases dataset with
  | nil => exact absurd rfl hds
  | cons r rest =>
    set m := findClosest inputs.windSpeed (inputs.flowRate * 1000)
      (orientationOf inputs.windDirection) inputs.rowSpacing (r :: rest) with hm
    have hnone : m.closestRow.get? (DATA_START_INDEX + safeIndexOf inputs.columns i)
        = none := List.get?_eq_none.mpr hlen
    have hraw : rawTempKOf m.closestRow inputs.columns i = DATA_AMBIENT_K := by
      unfold rawTempKOf
      rw [hnone]
      rfl
    refine ⟨hraw, ?_⟩
    obtain ⟨n, hg, ht, _, _⟩ :=
      gridOf_get inputs (specsOpt.getD defaultSpecs) m.closestRow i hi
    rw [calcSim_cons, buildResult_grid, ← hm, hg]
    rw [Option.map_some']
    have h104 : round1 (kelvinToF DATA_AMBIENT_K) = 104 := by with_unfolding_all decide
    rw [ht, nodeOf_totalTemp, if_pos hact]
    unfold finalTempFOf
    rw [hraw, h104]

set_option maxRecDepth 16384 in
/-- Evaluation witness for `missing_temperature_fallback`: a matched row with no
temperature entries at all. -/
theorem missing_temperature_fallback_witness :
    (([shortRow] : List (List ℚ)) ≠ [] ∧
        (findClosest sampleInputs.windSpeed (sampleInputs.flowRate * 1000)
          (orientationOf sampleInputs.windDirection) sampleInputs.rowSpacing
          [shortRow]).closestRow.length
          ≤ DATA_START_INDEX + safeIndexOf sampleInputs.columns 0 ∧
        isActiveAt sampleInputs.layout 0 = true ∧
        0 < sampleInputs.rows * sampleInputs.columns) ∧
      rawTempKOf (findClosest sampleInputs.windSpeed (sampleInputs.flowRate * 1000)
          (orientationOf sampleInputs.windDirection) sampleInputs.rowSpacing
          [shortRow]).closestRow sampleInputs.columns 0 = DATA_AMBIENT_K ∧
      ((calculateSimulation 1 0 sampleInputs [shortRow] (some defaultSpecs)).grid.get? 0).map
        ChillerNode.totalTemp = some 104 :=
  ⟨⟨by decide, by with_unfolding_all decide, by decide, by decide⟩,
    missing_temperature_fallback 1 0 sampleInputs [shortRow] (some defaultSpecs) 0
      (by decide) (by with_unfolding_all decide) (by decide) (by decide)⟩

-- Literature benchmark: the closed-form regression of the spec (§4.6),
-- written from the spec's equations for comparison with `benchmarkOf`.

/-- Spec formula: `0.3048 × (|arrayLengthFt×cosθ| + |arrayWidthFt×sinθ|)` with
`arrayLengthFt = rows×16 + (rows−1)×rowSpacing` and
`arrayWidthFt = columns×7.5 + (columns−1)×colSpacing`. -/
def specEffectiveLengthMeters (rows columns : ℕ) (rowSpacing colSpacing : ℚ)
    (cosTheta sinTheta : ℚ) : ℚ :=
  0.3048 * (|((rows : ℚ) * 16 + ((rows : ℚ) - 1) * rowSpacing) * cosTheta| +
    |((columns : ℚ) * 7.5 + ((columns : ℚ) - 1) * colSpacing) * sinTheta|)

/-- Spec formula: `8.7 × max((Lm−38.9)/26.8, −1) + 9.0`, floored at 0,
converted to a °F delta by `×1.8`. -/
def specAvgRiseF (Lm : ℚ) : ℚ :=
  max (8.7 * max ((Lm - 38.9) / 26.8) (-1) + 9.0) 0 * 1.8

/-- Spec formula: `18.7 × max((Lm−38.9)/26.8, −1) + 19.5`, floored at 0,
converted to a °F delta by `×1.8`. -/
def specMaxRiseF (Lm : ℚ) : ℚ :=
  max (18.7 * max ((Lm - 38.9) / 26.8) (-1) + 19.5) 0 * 1.8

/-- C9: with a non-empty dataset, the returned benchmark fields are exactly the
spec's regression formulas (reported values rounded to one decimal), with
`cosTheta`/`sinTheta` the values of cosine and sine at the unfolded wind
direction in radians. -/
theorem literature_benchmark_formula (cosTheta sinTheta : ℚ)
    (inputs : SimulationInputs) (dataset : List (List ℚ))
    (specsOpt : Option ChillerSpecs) (h : dataset ≠ []) :
    (calculateSimulation cosTheta sinTheta inputs dataset
        specsOpt).benchmark.effectiveLengthMeters =
      round1 (specEffectiveLengthMeters inputs.rows inputs.columns
        inputs.rowSpacing inputs.colSpacing cosTheta sinTheta) ∧
    (calculateSimulation cosTheta sinTheta inputs dataset
        specsOpt).benchmark.predictedAvgRiseF =
      round1 (specAvgRiseF (specEffectiveLengthMeters inputs.rows inputs.columns
        inputs.rowSpacing inputs.colSpacing cosTheta sinTheta)) ∧
    (calculateSimulation cosTheta sinTheta inputs dataset
        specsOpt).benchmark.predictedMaxRiseF =
      round1 (specMaxRiseF (specEffectiveLengthMeters inputs.rows inputs.columns
        inputs.rowSpacing inputs.colSpacing cosTheta sinTheta)) := by
  cases dataset with
  | nil => exact absurd rfl h
  | cons r rest =>
    rw [calcSim_cons, buildResult_benchmark]
    simp only [benchmarkOf, specEffectiveLengthMeters, specAvgRiseF, specMaxRiseF,
      toDeltaF, ftToMeters, CHILLER_LENGTH_FT, CHILLER_WIDTH_FT]
    rw [mul_comm (0.3048 : ℚ)]
    exact ⟨rfl, rfl, rfl⟩

/-- Evaluation witness for `literature_benchmark_formula` at concrete data. -/
theorem literature_benchmark_formula_witness :
    ([sampleRow] ≠ ([] : List (List ℚ))) ∧
      (calculateSimulation 1 0 sampleInputs [sampleRow]
          (some defaultSpecs)).benchmark.effectiveLengthMeters =
        round1 (specEffectiveLengthMeters sampleInputs.rows sampleInputs.columns
          sampleInputs.rowSpacing sampleInputs.colSpacing 1 0) ∧
      (calculateSimulation 1 0 sampleInputs [sampleRow]
          (some defaultSpecs)).benchmark.predictedAvgRiseF =
        round1 (specAvgRiseF (specEffectiveLengthMeters sampleInputs.rows
          sampleInputs.columns sampleInputs.rowSpacing sampleInputs.colSpacing 1 0)) ∧
      (calculateSimulation 1 0 sampleInputs [sampleRow]
          (some defaultSpecs)).benchmark.predictedMaxRiseF =
        round1 (specMaxRiseF (specEffectiveLengthMeters sampleInputs.rows
          sampleInputs.columns sampleInputs.rowSpacing sampleInputs.colSpacing 1 0)) :=
  ⟨by decide,
    (literature_benchmark_formula 1 0 sampleInputs [sampleRow] (some defaultSpecs)
        (by decide)).1,
    (literature_benchmark_formula 1 0 sampleInputs [sampleRow] (some defaultSpecs)
        (by decide)).2.1,
    (literature_benchmark_formula 1 0 sampleInputs [sampleRow] (some defaultSpecs)
        (by decide)).2.2⟩

-- Further projections of `buildResult` (the remaining aggregates).

theorem buildResult_totalRated (inputs : SimulationInputs) (specs : ChillerSpecs)
    (b : LiteratureBenchmark) (row : List ℚ) (k : ℕ) :
    (buildResult inputs specs b row k).capacity.totalRatedCapacity =
      (activeCountOver inputs.layout (gridIdxs inputs) : ℚ) * specs.ratedCapacity := rfl

theorem buildResult_atRisk (inputs : SimulationInputs) (specs : ChillerSpecs)
    (b : LiteratureBenchmark) (row : List ℚ) (k : ℕ) :
    (buildResult inputs specs b row k).capacity.chillersAtRisk =
      atRiskCountOver inputs specs row (gridIdxs inputs) := rfl

theorem buildResult_lockedOut (inputs : SimulationInputs) (specs : ChillerSpecs)
    (b : LiteratureBenchmark) (row : List ℚ) (k : ℕ) :
    (buildResult inputs specs b row k).capacity.chillersLockedOut =
      lockedOutCountOver inputs specs row (gridIdxs inputs) := rfl

theorem buildResult_maxTempRise (inputs : SimulationInputs) (specs : ChillerSpecs)
    (b : LiteratureBenchmark) (row : List ℚ) (k : ℕ) :
    (buildResult inputs specs b row k).maxTempRise =
      round1 (globalMaxRiseOver inputs row (gridIdxs inputs)) := rfl

theorem buildResult_avgTempRise (inputs : SimulationInputs) (specs : ChillerSpecs)
    (b : LiteratureBenchmark) (row : List ℚ) (k : ℕ) :
    (buildResult inputs specs b row k).avgTempRise =
      round1 (if 0 < activeCountOver inputs.layout (gridIdxs inputs) then
        totalRiseSumOver inputs row (gridIdxs inputs)
          / (activeCountOver inputs.layout (gridIdxs inputs) : ℚ)
        else 0) := rfl

-- Removing the index of a cell that fails the activity filter changes nothing.

theorem filter_erase_eq (p : ℕ → Bool) (i : ℕ) (h : p i = false) (l : List ℕ) :
    (l.erase i).filter p = l.filter p := by
  induction l with
  | nil => rfl
  | cons a t ih =>
    by_cases ha : a = i
    · subst ha
      simp [List.erase_cons, List.filter_cons, h]
    · simp only [List.erase_cons, if_neg (by simpa using ha), beq_iff_eq, ha, ite_false,
        List.filter_cons, ih]

theorem activeIdxsOver_erase (layout : List Bool) (idxs : List ℕ) (i : ℕ)
    (h : isActiveAt layout i = false) :
    activeIdxsOver layout (idxs.erase i) = activeIdxsOver layout idxs :=
  filter_erase_eq _ i h idxs

/-- C7: with a non-empty dataset, a grid cell with `layout[i] = false` reports
`totalTemp = ambientTemp` and contributes to no aggregate: each reported aggregate
equals the same aggregation computed with index `i` removed from the visited
index list. -/
theorem inactive_cell_exclusion (cosTheta sinTheta : ℚ) (inputs : SimulationInputs)
    (dataset : List (List ℚ)) (specs : ChillerSpecs) (i : ℕ)
    (hds : dataset ≠ []) (hi : i < inputs.rows * inputs.columns)
    (hinact : isActiveAt inputs.layout i = false) :
    (∀ n, (calculateSimulation cosTheta sinTheta inputs dataset (some specs)).grid.get? i
        = some n → n.totalTemp = inputs.ambientTemp) ∧
    (calculateSimulation cosTheta sinTheta inputs dataset
        (some specs)).capacity.totalRatedCapacity =
      (activeCountOver inputs.layout ((gridIdxs inputs).erase i) : ℚ) * specs.ratedCapacity ∧
    (calculateSimulation cosTheta sinTheta inputs dataset
        (some specs)).capacity.totalEffectiveCapacity =
      totalEffCapOver inputs specs (findClosest inputs.windSpeed (inputs.flowRate * 1000)
        (orientationOf inputs.windDirection) inputs.rowSpacing dataset).closestRow
        ((gridIdxs inputs).erase i) ∧
    (calculateSimulation cosTheta sinTheta inputs dataset
        (some specs)).capacity.chillersAtRisk =
      atRiskCountOver inputs specs (findClosest inputs.windSpeed (inputs.flowRate * 1000)
        (orientationOf inputs.windDirection) inputs.rowSpacing dataset).closestRow
        ((gridIdxs inputs).erase i) ∧
    (calculateSimulation cosTheta sinTheta inputs dataset
        (some specs)).capacity.chillersLockedOut =
      lockedOutCountOver inputs specs (findClosest inputs.windSpeed (inputs.flowRate * 1000)
        (orientationOf inputs.windDirection) inputs.rowSpacing dataset).closestRow
        ((gridIdxs inputs).erase i) ∧
    (calculateSimulation cosTheta sinTheta inputs dataset (some specs)).maxTempRise =
      round1 (globalMaxRiseOver inputs (findClosest inputs.windSpeed (inputs.flowRate * 1000)
        (orientationOf inputs.windDirection) inputs.rowSpacing dataset).closestRow
        ((gridIdxs inputs).erase i)) ∧
    (calculateSimulation cosTheta sinTheta inputs dataset (some specs)).avgTempRise =
      round1 (if 0 < activeCountOver inputs.layout ((gridIdxs inputs).erase i) then
        totalRiseSumOver inputs (findClosest inputs.windSpeed (inputs.flowRate * 1000)
          (orientationOf inputs.windDirection) inputs.rowSpacing dataset).closestRow
          ((gridIdxs inputs).erase i)
          / (activeCountOver inputs.layout ((gridIdxs inputs).erase i) : ℚ)
        else 0) := by
  cases dataset with
  | nil => exact absurd rfl hds
  | cons r rest =>
    have hAct : activeIdxsOver inputs.layout ((gridIdxs inputs).erase i)
        = activeIdxsOver inputs.layout (gridIdxs inputs) :=
      activeIdxsOver_erase inputs.layout (gridIdxs inputs) i hinact
    rw [calcSim_cons]
    simp only [Option.getD_some]
    refine ⟨?_, ?_, ?_, ?_, ?_, ?_, ?_⟩
    · intro n hn
      obtain ⟨n', hg, ht, _, _⟩ := gridOf_get inputs specs
        (findClosest inputs.windSpeed (inputs.flowRate * 1000)
          (orientationOf inputs.windDirection) inputs.rowSpacing (r :: rest)).closestRow i hi
      rw [buildResult_grid] at hn
      rw [hn] at hg
      obtain rfl := (Option.some_inj.mp hg).symm
      rw [ht, nodeOf_totalTemp, if_neg (by simp [hinact])]
    · rw [buildResult_totalRated]
      unfold activeCountOver
      rw [hAct]
    · rw [buildResult_totalEff]
      unfold totalEffCapOver
      rw [hAct]
    · rw [buildResult_atRisk]
      unfold atRiskCountOver
      rw [hAct]
    · rw [buildResult_lockedOut]
      unfold lockedOutCountOver
      rw [hAct]
    · rw [buildResult_maxTempRise]
      unfold globalMaxRiseOver
      rw [hAct]
    · rw [buildResult_avgTempRise]
      unfold totalRiseSumOver activeCountOver
      rw [hAct]

/-- A 1×1 grid whose only cell is inactive (witness data). -/
def inactiveInputs : SimulationInputs := { sampleInputs with layout := [false] }

/-- Evaluation witness for `inactive_cell_exclusion`. -/
theorem inactive_cell_exclusion_witness :
    (([sampleRow] : List (List ℚ)) ≠ [] ∧
        0 < inactiveInputs.rows * inactiveInputs.columns ∧
        isActiveAt inactiveInputs.layout 0 = false) ∧
      (calculateSimulation 1 0 inactiveInputs [sampleRow]
          (some defaultSpecs)).capacity.totalEffectiveCapacity =
        totalEffCapOver inactiveInputs defaultSpecs
          (findClosest inactiveInputs.windSpeed (inactiveInputs.flowRate * 1000)
            (orientationOf inactiveInputs.windDirection) inactiveInputs.rowSpacing
            [sampleRow]).closestRow ((gridIdxs inactiveInputs).erase 0) :=
  ⟨⟨by decide, by decide, by decide⟩,
    (inactive_cell_exclusion 1 0 inactiveInputs [sampleRow] defaultSpecs 0
      (by decide) (by decide) (by decide)).2.2.1⟩

-- Per-cell characterizations of the capacity block, for the lockout
-- monotonicity argument.

theorem cellCap_status_locked (s : ChillerSpecs) (t : ℚ) :
    (cellCap s t).status = ChillerStatus.LockedOut ↔ t ≥ s.lockoutTemp := by
  simp only [cellCap]
  split_ifs with h h2 h3 <;> simp_all

theorem cellCap_status_atRisk (s : ChillerSpecs) (t : ℚ) :
    (cellCap s t).status = ChillerStatus.AtRisk ↔
      ¬t ≥ s.lockoutTemp ∧ t ≥ s.lockoutTemp - 5 := by
  simp only [cellCap]
  split_ifs with h h2 h3 <;> simp_all

theorem cellCap_cap_of_locked (s : ChillerSpecs) (t : ℚ) (h : t ≥ s.lockoutTemp) :
    (cellCap s t).effectiveCap = 0 := by
  simp [cellCap, h]

theorem cellCap_cap_of_unlocked (s : ChillerSpecs) (t : ℚ) (h : ¬t ≥ s.lockoutTemp) :
    (cellCap s t).effectiveCap =
      s.ratedCapacity * (1 - min (max 0 (t - s.ratedEnteringTemp) * s.deratingSlope) 100 / 100) := by
  simp [cellCap, h]

theorem cellCap_cap_nonneg (s : ChillerSpecs) (t : ℚ) (hrc : 0 ≤ s.ratedCapacity) :
    0 ≤ (cellCap s t).effectiveCap := by
  by_cases h : t ≥ s.lockoutTemp
  · rw [cellCap_cap_of_locked s t h]
  · rw [cellCap_cap_of_unlocked s t h]
    have hmin : min (max 0 (t - s.ratedEnteringTemp) * s.deratingSlope) 100 ≤ 100 :=
      min_le_right _ _
    have hone : min (max 0 (t - s.ratedEnteringTemp) * s.deratingSlope) 100 / 100 ≤ 1 :=
      (div_le_one (by norm_num : (0 : ℚ) < 100)).mpr hmin
    exact mul_nonneg hrc (by linarith)

theorem cellCap_cap_mono (s1 s2 : ChillerSpecs) (t : ℚ)
    (hL : s1.lockoutTemp ≤ s2.lockoutTemp)
    (hcap : s2.ratedCapacity = s1.ratedCapacity)
    (hent : s2.ratedEnteringTemp = s1.ratedEnteringTemp)
    (hslope : s2.deratingSlope = s1.deratingSlope)
    (hrc : 0 ≤ s1.ratedCapacity) :
    (cellCap s1 t).effectiveCap ≤ (cellCap s2 t).effectiveCap := by
  by_cases h2 : t ≥ s2.lockoutTemp
  · have h1 : t ≥ s1.lockoutTemp := le_trans hL h2
    rw [cellCap_cap_of_locked s1 t h1, cellCap_cap_of_locked s2 t h2]
  · by_cases h1 : t ≥ s1.lockoutTemp
    · rw [cellCap_cap_of_locked s1 t h1]
      exact cellCap_cap_nonneg s2 t (by rw [hcap]; exact hrc)
    · rw [cellCap_cap_of_unlocked s1 t h1, cellCap_cap_of_unlocked s2 t h2,
        hcap, hent, hslope]

-- Lifting the per-cell facts to the aggregates.

theorem totalEffCapOver_mono (inputs : SimulationInputs) (s1 s2 : ChillerSpecs)
    (row : List ℚ) (idxs : List ℕ)
    (hL : s1.lockoutTemp ≤ s2.lockoutTemp)
    (hcap : s2.ratedCapacity = s1.ratedCapacity)
    (hent : s2.ratedEnteringTemp = s1.ratedEnteringTemp)
    (hslope : s2.deratingSlope = s1.deratingSlope)
    (hrc : 0 ≤ s1.ratedCapacity) :
    totalEffCapOver inputs s1 row idxs ≤ totalEffCapOver inputs s2 row idxs := by
  unfold totalEffCapOver
  exact List.sum_le_sum fun i _ =>
    cellCap_cap_mono s1 s2 (finalTempFOf row inputs.columns i) hL hcap hent hslope hrc

theorem lockedOutCountOver_zero (inputs : SimulationInputs) (s1 s2 : ChillerSpecs)
    (row : List ℚ) (idxs : List ℕ)
    (hL : s1.lockoutTemp ≤ s2.lockoutTemp)
    (h : lockedOutCountOver inputs s1 row idxs = 0) :
    lockedOutCountOver inputs s2 row idxs = 0 := by
  unfold lockedOutCountOver at h ⊢
  rw [List.countP_eq_zero] at h ⊢
  intro a ha
  have h1 := h a ha
  simp only [decide_eq_true_eq] at h1 ⊢
  intro h2
  rw [cellCap_status_locked] at h1 h2
  exact h1 (le_trans hL h2)

theorem atRiskCountOver_zero (inputs : SimulationInputs) (s1 s2 : ChillerSpecs)
    (row : List ℚ) (idxs : List ℕ)
    (hL : s1.lockoutTemp ≤ s2.lockoutTemp)
    (hlock : lockedOutCountOver inputs s1 row idxs = 0)
    (hrisk : atRiskCountOver inputs s1 row idxs = 0) :
    atRiskCountOver inputs s2 row idxs = 0 := by
  unfold lockedOutCountOver at hlock
  unfold atRiskCountOver at hrisk ⊢
  rw [List.countP_eq_zero] at hlock hrisk ⊢
  intro a ha
  have hl := hlock a ha
  have hr := hrisk a ha
  simp only [decide_eq_true_eq] at hl hr ⊢
  intro h2
  rw [cellCap_status_atRisk] at h2 hr
  rw [cellCap_status_locked] at hl
  by_cases h1 : finalTempFOf row inputs.columns a ≥ s1.lockoutTemp
  · exact hl h1
  · exact hr ⟨h1, by linarith [h2.2]⟩

/-- Rank of a redundancy label in the order INTACT < ERODED < LOST < CRITICAL. -/
def labelRank : RedundancyLabel → ℕ
  | .INTACT => 0
  | .ERODED => 1
  | .LOST => 2
  | .CRITICAL => 3

theorem labelRank_le_three (l : RedundancyLabel) : labelRank l ≤ 3 := by
  cases l <;> simp [labelRank]

theorem redundancyLabelOf_lockout_mono (inputs : SimulationInputs)
    (s1 s2 : ChillerSpecs) (row : List ℚ)
    (hL : s1.lockoutTemp ≤ s2.lockoutTemp)
    (hcap : s2.ratedCapacity = s1.ratedCapacity)
    (hent : s2.ratedEnteringTemp = s1.ratedEnteringTemp)
    (hslope : s2.deratingSlope = s1.deratingSlope)
    (hdl : s2.designLoad = s1.designLoad)
    (hrc : 0 < s1.ratedCapacity) :
    labelRank (redundancyLabelOf inputs s2 row) ≤
      labelRank (redundancyLabelOf inputs s1 row) := by
  have heff : totalEffCapOver inputs s1 row (gridIdxs inputs) ≤
      totalEffCapOver inputs s2 row (gridIdxs inputs) :=
    totalEffCapOver_mono inputs s1 s2 row (gridIdxs inputs) hL hcap hent hslope hrc.le
  simp only [redundancyLabelOf, hcap, hdl]
  by_cases hcrit1 : 0 < lockedOutCountOver inputs s1 row (gridIdxs inputs) ∨
      totalEffCapOver inputs s1 row (gridIdxs inputs) < s1.designLoad
  · rw [if_pos hcrit1]
    exact labelRank_le_three _
  · push_neg at hcrit1
    obtain ⟨hl1, hd1⟩ := hcrit1
    have hl1z : lockedOutCountOver inputs s1 row (gridIdxs inputs) = 0 := Nat.le_zero.mp hl1
    have hl2z : lockedOutCountOver inputs s2 row (gridIdxs inputs) = 0 :=
      lockedOutCountOver_zero inputs s1 s2 row (gridIdxs inputs) hL hl1z
    have hd2 : s1.designLoad ≤ totalEffCapOver inputs s2 row (gridIdxs inputs) :=
      le_trans hd1 heff
    rw [if_neg (show ¬(0 < lockedOutCountOver inputs s2 row (gridIdxs inputs) ∨
        totalEffCapOver inputs s2 row (gridIdxs inputs) < s1.designLoad)
      by push_neg; exact ⟨by simp [hl2z], hd2⟩)]
    rw [if_neg (show ¬(totalEffCapOver inputs s2 row (gridIdxs inputs) - s1.designLoad < 0)
      by linarith)]
    rw [if_neg (show ¬(0 < lockedOutCountOver inputs s1 row (gridIdxs inputs) ∨
        totalEffCapOver inputs s1 row (gridIdxs inputs) < s1.designLoad)
      by push_neg; exact ⟨hl1, hd1⟩)]
    rw [if_neg (show ¬(totalEffCapOver inputs s1 row (gridIdxs inputs) - s1.designLoad < 0)
      by linarith)]
    by_cases herod1 : 0 < atRiskCountOver inputs s1 row (gridIdxs inputs) ∨
        (totalEffCapOver inputs s1 row (gridIdxs inputs) - s1.designLoad)
          / s1.ratedCapacity < 1
    · rw [if_pos herod1]
      split_ifs <;> simp [labelRank]
    · push_neg at herod1
      obtain ⟨hr1, hs1⟩ := herod1
      have hr1z : atRiskCountOver inputs s1 row (gridIdxs inputs) = 0 := Nat.le_zero.mp hr1
      have hr2z : atRiskCountOver inputs s2 row (gridIdxs inputs) = 0 :=
        atRiskCountOver_zero inputs s1 s2 row (gridIdxs inputs) hL hl1z hr1z
      have hquot : (totalEffCapOver inputs s1 row (gridIdxs inputs) - s1.designLoad)
          / s1.ratedCapacity ≤
          (totalEffCapOver inputs s2 row (gridIdxs inputs) - s1.designLoad)
            / s1.ratedCapacity := by
        gcongr
      rw [if_neg (show ¬(0 < atRiskCountOver inputs s2 row (gridIdxs inputs) ∨
          (totalEffCapOver inputs s2 row (gridIdxs inputs) - s1.designLoad)
            / s1.ratedCapacity < 1)
        by push_neg; exact ⟨by simp [hr2z], le_trans hs1 hquot⟩)]
      rw [if_neg (show ¬(0 < atRiskCountOver inputs s1 row (gridIdxs inputs) ∨
          (totalEffCapOver inputs s1 row (gridIdxs inputs) - s1.designLoad)
            / s1.ratedCapacity < 1)
        by push_neg; exact ⟨by simp [hr1z], hs1⟩)]

/-- C4: holding the inputs, dataset, and all other specs fields fixed (with the
data-model invariant `0 < ratedCapacity`), raising `lockoutTemp` never worsens the
`redundancyLabel` rank in the order INTACT < ERODED < LOST < CRITICAL. -/
theorem lockout_monotonicity (cosTheta sinTheta : ℚ) (inputs : SimulationInputs)
    (dataset : List (List ℚ)) (specs : ChillerSpecs) (L2 : ℚ)
    (hL : specs.lockoutTemp ≤ L2) (hrc : 0 < specs.ratedCapacity) :
    labelRank ((calculateSimulation cosTheta sinTheta inputs dataset
        (some { specs with lockoutTemp := L2 })).capacity.redundancyLabel) ≤
      labelRank ((calculateSimulation cosTheta sinTheta inputs dataset
        (some specs)).capacity.redundancyLabel) := by
  cases dataset with
  | nil => rw [calcSim_nil, calcSim_nil]
  | cons r rest =>
    rw [calcSim_cons, calcSim_cons, buildResult_label, buildResult_label]
    simp only [Option.getD_some]
    exact redundancyLabelOf_lockout_mono inputs specs { specs with lockoutTemp := L2 }
      _ hL rfl rfl rfl rfl hrc

/-- Evaluation witness for `lockout_monotonicity`: default specs, lockout raised
from 127 to 130 °F. -/
theorem lockout_monotonicity_witness :
    (defaultSpecs.lockoutTemp ≤ 130 ∧ 0 < defaultSpecs.ratedCapacity) ∧
      labelRank ((calculateSimulation 1 0 sampleInputs [sampleRow]
          (some { defaultSpecs with lockoutTemp := 130 })).capacity.redundancyLabel) ≤
        labelRank ((calculateSimulation 1 0 sampleInputs [sampleRow]
          (some defaultSpecs)).capacity.redundancyLabel) :=
  ⟨⟨by norm_num [defaultSpecs], by norm_num [defaultSpecs]⟩,
    lockout_monotonicity 1 0 sampleInputs [sampleRow] defaultSpecs 130
      (by norm_num [defaultSpecs]) (by norm_num [defaultSpecs])⟩

-- The matcher selects the earliest row of minimal distance; in particular the
-- earliest row at distance zero.

theorem distSqTo_self_zero (row : List ℚ) :
    distSqTo (row.getD 0 0) (row.getD 1 0) (row.getD 2 0) (row.getD 3 0) row = 0 := by
  simp [distSqTo]

theorem findClosestAux_no_update (sp fl o rs : ℚ) (l : List (List ℚ)) :
    ∀ (i : ℕ) (s : MatchState), s.minDistance = 0 →
      findClosestAux sp fl o rs i s l = s := by
  induction l with
  | nil => intro i s _; rfl
  | cons r rest ih =>
    intro i s h
    simp only [findClosestAux]
    rw [h, if_neg (not_lt.mpr (distSqTo_nonneg sp fl o rs r))]
    exact ih (i + 1) s h

theorem findClosestAux_exact (sp fl o rs : ℚ) (l : List (List ℚ)) :
    ∀ (k i : ℕ) (s : MatchState) (R : List ℚ),
      l.get? k = some R →
      distSqTo sp fl o rs R = 0 →
      (∀ j, j < k → distSqTo sp fl o rs (l.getD j []) ≠ 0) →
      0 < s.minDistance →
      findClosestAux sp fl o rs i s l = ⟨0, R, i + k⟩ := by
  induction l with
  | nil =>
    intro k i s R hk
    simp at hk
  | cons r rest ih =>
    intro k i s R hk hzero hfirst hpos
    cases k with
    | zero =>
      obtain rfl : r = R := by simpa using hk
      simp only [findClosestAux]
      rw [hzero, if_pos hpos]
      rw [findClosestAux_no_update sp fl o rs rest (i + 1) ⟨0, r, i⟩ rfl]
      rfl
    | succ k' =>
      have hr0 : distSqTo sp fl o rs r ≠ 0 := by
        have h := hfirst 0 (Nat.succ_pos k')
        simpa using h
      have hrpos : 0 < distSqTo sp fl o rs r :=
        lt_of_le_of_ne (distSqTo_nonneg sp fl o rs r) (Ne.symm hr0)
      simp only [findClosestAux]
      set s' := if distSqTo sp fl o rs r < s.minDistance then
        (⟨distSqTo sp fl o rs r, r, i⟩ : MatchState) else s with hs'
      have hpos' : 0 < s'.minDistance := by
        rw [hs']
        split_ifs
        · exact hrpos
        · exact hpos
      have hk' : rest.get? k' = some R := by simpa using hk
      have hfirst' : ∀ j, j < k' → distSqTo sp fl o rs (rest.getD j []) ≠ 0 := by
        intro j hj
        have h := hfirst (j + 1) (Nat.succ_lt_succ hj)
        simpa using h
      rw [ih k' (i + 1) s' R hk' hzero hfirst' hpos']
      rw [show i + 1 + k' = i + (k' + 1) from by omega]

theorem findClosest_exact (sp fl o rs : ℚ) (dataset : List (List ℚ)) (k : ℕ)
    (R : List ℚ) (hk : dataset.get? k = some R)
    (hzero : distSqTo sp fl o rs R = 0)
    (hfirst : ∀ j, j < k → distSqTo sp fl o rs (dataset.getD j []) ≠ 0) :
    findClosest sp fl o rs dataset = ⟨0, R, k⟩ := by
  unfold findClosest
  have hpos : 0 < NUMBER_MAX_VALUE := by rw [NUMBER_MAX_VALUE]; norm_num
  have h := findClosestAux_exact sp fl o rs dataset k 0
    ⟨NUMBER_MAX_VALUE, dataset.headD [], 0⟩ R hk hzero hfirst hpos
  simpa using h

/-- C1 (amended): if `SimulationInputs` are built from row `R` of the dataset
(`windSpeed = R[0]`, `flowRate = R[1]/1000`, a `windDirection` folding to `R[2]`,
`rowSpacing = R[3]`), and no earlier row has normalized squared distance 0, then
the matcher selects `R`, and every active grid cell's reported `totalTemp` equals
`kelvinToF` of `R`'s temperature at the projected (clamped) index — with the
313.15 K fallback substituting for a missing entry — within 0.05 °F. -/
theorem exact_match_identity (cosTheta sinTheta : ℚ) (inputs : SimulationInputs)
    (dataset : List (List ℚ)) (specs : ChillerSpecs) (k : ℕ) (R : List ℚ)
    (hk : dataset.get? k = some R)
    (hspeed : inputs.windSpeed = R.getD 0 0)
    (hflow : inputs.flowRate = R.getD 1 0 / 1000)
    (horient : orientationOf inputs.windDirection = R.getD 2 0)
    (hspacing : inputs.rowSpacing = R.getD 3 0)
    (hfirst : ∀ j, j < k → distSqTo inputs.windSpeed (inputs.flowRate * 1000)
      (orientationOf inputs.windDirection) inputs.rowSpacing (dataset.getD j []) ≠ 0) :
    (calculateSimulation cosTheta sinTheta inputs dataset (some specs)).matchedRowIndex
        = (k : ℤ) ∧
      ∀ i, i < inputs.rows * inputs.columns → isActiveAt inputs.layout i = true →
        ∀ n, (calculateSimulation cosTheta sinTheta inputs dataset
            (some specs)).grid.get? i = some n →
          |n.totalTemp - kelvinToF ((R.get? (DATA_START_INDEX +
            safeIndexOf inputs.columns i)).getD DATA_AMBIENT_K)| ≤ 1 / 20 := by
  have hzero : distSqTo inputs.windSpeed (inputs.flowRate * 1000)
      (orientationOf inputs.windDirection) inputs.rowSpacing R = 0 := by
    rw [hspeed, horient, hspacing, hflow,
      div_mul_cancel₀ _ (by norm_num : (1000 : ℚ) ≠ 0)]
    exact distSqTo_self_zero R
  have hmatch : findClosest inputs.windSpeed (inputs.flowRate * 1000)
      (orientationOf inputs.windDirection) inputs.rowSpacing dataset = ⟨0, R, k⟩ :=
    findClosest_exact _ _ _ _ dataset k R hk hzero hfirst
  cases dataset with
  | nil => simp at hk
  | cons r rest =>
    have hrow : (findClosest inputs.windSpeed (inputs.flowRate * 1000)
        (orientationOf inputs.windDirection) inputs.rowSpacing (r :: rest)).closestRow
        = R := by rw [hmatch]
    constructor
    · rw [calcSim_cons, buildResult_matchedRowIndex, hmatch]
    · intro i hi hact n hn
      rw [calcSim_cons, buildResult_grid] at hn
      simp only [Option.getD_some] at hn
      rw [hrow] at hn
      obtain ⟨n', hg, ht, _, _⟩ := gridOf_get inputs specs R i hi
      rw [hn] at hg
      obtain rfl := (Option.some_inj.mp hg).symm
      rw [ht, nodeOf_totalTemp, if_pos hact]
      show |round1 (finalTempFOf R inputs.columns i) - finalTempFOf R inputs.columns i|
        ≤ 1 / 20
      exact abs_round1_sub_le _

/-- A dataset row with the parameters of `sampleRow` but different temperatures
(counterexample data). -/
def dupRowA : List ℚ := [4, 140000, 45, 12] ++ List.replicate 20 300

/-- A second row with the same parameters as `dupRowA` (counterexample data). -/
def dupRowB : List ℚ := [4, 140000, 45, 12] ++ List.replicate 20 400

set_option maxRecDepth 16384 in
/-- Counterexample to C1 as stated: `sampleInputs` is built exactly from row
`dupRowB` at index 1, yet the matcher selects index 0 (the earlier duplicate of
the parameters), and the reported cell temperature differs from `dupRowB`'s by
far more than 0.05 °F. -/
theorem exact_match_identity_counterexample :
    (sampleInputs.windSpeed = dupRowB.getD 0 0 ∧
        sampleInputs.flowRate = dupRowB.getD 1 0 / 1000 ∧
        orientationOf sampleInputs.windDirection = dupRowB.getD 2 0 ∧
        sampleInputs.rowSpacing = dupRowB.getD 3 0 ∧
        ([dupRowA, dupRowB] : List (List ℚ)).get? 1 = some dupRowB) ∧
      (calculateSimulation 1 0 sampleInputs [dupRowA, dupRowB]
          (some defaultSpecs)).matchedRowIndex ≠ 1 ∧
      ((calculateSimulation 1 0 sampleInputs [dupRowA, dupRowB]
          (some defaultSpecs)).grid.get? 0).map ChillerNode.totalTemp
        = some (round1 (kelvinToF 300)) ∧
      ¬(|round1 (kelvinToF 300) - kelvinToF ((dupRowB.get? (DATA_START_INDEX +
          safeIndexOf sampleInputs.columns 0)).getD DATA_AMBIENT_K)| ≤ 1 / 20) :=
  ⟨⟨by decide, by with_unfolding_all decide, by with_unfolding_all decide, by decide,
      by decide⟩,
    by with_unfolding_all decide, by with_unfolding_all decide,
    by with_unfolding_all decide⟩

set_option maxRecDepth 16384 in
/-- Evaluation witness for `exact_match_identity`: the target row sits at index 1
behind a row at nonzero distance, and is selected. -/
theorem exact_match_identity_witness :
    ((([[0, 0, 0, 10], sampleRow] : List (List ℚ))).get? 1 = some sampleRow ∧
        sampleInputs.windSpeed = sampleRow.getD 0 0 ∧
        sampleInputs.flowRate = sampleRow.getD 1 0 / 1000 ∧
        orientationOf sampleInputs.windDirection = sampleRow.getD 2 0 ∧
        sampleInputs.rowSpacing = sampleRow.getD 3 0 ∧
        (∀ j, j < 1 → distSqTo sampleInputs.windSpeed (sampleInputs.flowRate * 1000)
          (orientationOf sampleInputs.windDirection) sampleInputs.rowSpacing
          (([[0, 0, 0, 10], sampleRow] : List (List ℚ)).getD j []) ≠ 0)) ∧
      (calculateSimulation 1 0 sampleInputs [[0, 0, 0, 10], sampleRow]
          (some defaultSpecs)).matchedRowIndex = (1 : ℤ) :=
  ⟨⟨rfl, by decide, by with_unfolding_all decide,
      by with_unfolding_all decide, by with_unfolding_all decide,
      by with_unfolding_all decide⟩,
    (exact_match_identity 1 0 sampleInputs [[0, 0, 0, 10], sampleRow] defaultSpecs 1
      sampleRow rfl (by decide) (by with_unfolding_all decide)
      (by with_unfolding_all decide) (by with_unfolding_all decide)
      (by with_unfolding_all decide)).1⟩
